import Mathlib

/-!
Shallow embedding of the nwcli interactive pager (package `tui`):
the model state, the event-update function, the scroll-viewport
arithmetic, the content-assembly pipeline, the relative-time
formatter and the pager-eligibility decision, translated from
`pkg/tui/model.go` and `pkg/tui/pager.go`.

Go machine integers on this path stay far below 2^63 for every input
considered, so they are embedded as `Int`; Go integer division (which
truncates toward zero) is embedded as `Int.tdiv`.  External
collaborators (the glamour renderer, the terminal, the clock, the
environment) are passed in as explicit parameters.
-/

namespace Nwcli

/-- Embeds `news.Article` (pkg/news, `Article` struct).  The publish
time is the instant in nanoseconds since the epoch, matching Go's
`time.Time`/`time.Duration` arithmetic on this code path. -/
structure Article where
  title : String
  description : String
  content : String
  link : String
  published : Int
  source : String
  imageURL : String
  categories : List String

/-- Embeds `tui.ViewType` (model.go lines 29-34). -/
inductive ViewType where
  | IndexView
  | ArticleView
deriving DecidableEq, Repr

/-- Embeds `tui.Viewport` (model.go lines 37-41). -/
structure Viewport where
  content : String
  scrollOffset : Int
  height : Int

/-- Embeds `tui.Model` (model.go lines 16-26); the `renderer` field is
an external capability and is passed explicitly to the functions that
use it. -/
structure Model where
  articles : List Article
  currentView : ViewType
  selectedIndex : Int
  title : String
  viewport : Viewport
  showHelp : Bool
  windowWidth : Int
  windowHeight : Int

/-- Embeds `strings.Count(s, "\n")`: the number of newline characters
in `s`.  The spec's `totalLines(content)` is this quantity (its
scenario `100 lines, height 20 -> maxScroll = 81` agrees with the
code's `strings.Count` exactly on this reading). -/
def totalLines (s : String) : Nat :=
  (s.data.filter fun c => c = '\n').length

/-- The inline computation `lines - m.viewport.height + 1` that
model.go repeats in `scrollDown`, `pageDown` and the `end`/`G`
handler. -/
def maxScroll (v : Viewport) : Int :=
  (totalLines v.content : Int) - v.height + 1

/-- Embeds `NewModel` (model.go lines 44-69), success path of the
renderer construction.  The `viewport` field is left at its Go zero
value. -/
def NewModel (articles : List Article) (title : String) : Model :=
  { articles := articles
    currentView := .IndexView
    selectedIndex := if articles.length = 0 then -1 else 0
    title := title
    viewport := { content := "", scrollOffset := 0, height := 0 }
    showHelp := false
    windowWidth := 80
    windowHeight := 24 }

/-- Embeds `(*Model).scrollUp` (model.go lines 496-500). -/
def scrollUp (m : Model) : Model :=
  if m.viewport.scrollOffset > 0 then
    { m with viewport := { m.viewport with scrollOffset := m.viewport.scrollOffset - 1 } }
  else m

/-- Embeds `(*Model).scrollDown` (model.go lines 502-508). -/
def scrollDown (m : Model) : Model :=
  let ms := maxScroll m.viewport
  if ms > 0 ∧ m.viewport.scrollOffset < ms then
    { m with viewport := { m.viewport with scrollOffset := m.viewport.scrollOffset + 1 } }
  else m

/-- Embeds `(*Model).pageUp` (model.go lines 510-515). -/
def pageUp (m : Model) : Model :=
  let off := m.viewport.scrollOffset - (m.viewport.height - 2)
  { m with viewport := { m.viewport with scrollOffset := if off < 0 then 0 else off } }

/-- Embeds `(*Model).pageDown` (model.go lines 517-524): the new
offset is clamped to `maxScroll` only when `maxScroll > 0`. -/
def pageDown (m : Model) : Model :=
  let ms := maxScroll m.viewport
  let off := m.viewport.scrollOffset + (m.viewport.height - 2)
  { m with viewport := { m.viewport with scrollOffset := if ms > 0 ∧ off > ms then ms else off } }

/-- Embeds the `home`/`g` handler's article-view branch
(model.go line 168). -/
def jumpToTop (m : Model) : Model :=
  { m with viewport := { m.viewport with scrollOffset := 0 } }

/-- Embeds the `end`/`G` handler's article-view branch
(model.go lines 175-180). -/
def jumpToBottom (m : Model) : Model :=
  let ms := maxScroll m.viewport
  if ms > 0 then
    { m with viewport := { m.viewport with scrollOffset := ms } }
  else m

/-- Embeds `(*Model).updateViewport` (model.go lines 486-493). -/
def updateViewport (m : Model) : Model :=
  if m.currentView = .ArticleView then
    { m with viewport := { m.viewport with scrollOffset := 0, height := m.windowHeight - 4 } }
  else m

/-- The mouse buttons `Update` distinguishes (wheel up, wheel down,
left, anything else). -/
inductive MouseButton where
  | wheelUp
  | wheelDown
  | left
  | otherButton
deriving DecidableEq, Repr

/-- The messages `Update` handles: a window resize, a mouse press (the
only mouse action model.go reacts to), a key press carrying
`msg.String()`, and any other message (handled by the default
fall-through). -/
inductive Msg where
  | windowSize (width height : Int)
  | mousePress (button : MouseButton) (x y : Int)
  | key (s : String)
  | other
deriving Repr

/-- The only command the pager ever issues: `tea.Quit`, or none. -/
inductive Cmd where
  | none
  | quit
deriving DecidableEq, Repr

/-- Embeds the left-click branch of the mouse handler
(model.go lines 103-117): header height 6, item row height 6. -/
def handleLeftClick (m : Model) (y : Int) : Model :=
  if m.currentView = .IndexView ∧ m.articles.length > 0 then
    if y ≥ 6 then
      let clickedIndex := (y - 6).tdiv 6
      if clickedIndex ≥ 0 ∧ clickedIndex < (m.articles.length : Int) then
        updateViewport { m with selectedIndex := clickedIndex, currentView := .ArticleView }
      else m
    else m
  else m

/-- Embeds the `tea.WindowSizeMsg` case of `Update`
(model.go lines 79-82). -/
def handleResize (m : Model) (w h : Int) : Model :=
  { m with windowWidth := w, windowHeight := h,
           viewport := { m.viewport with height := h - 4 } }

/-- Embeds the wheel-up branch of the mouse handler and the
`up`/`k` handler, which model.go writes identically
(lines 87-94 and 140-147). -/
def handleUp (m : Model) : Model :=
  if m.currentView = .IndexView then
    (if m.selectedIndex > 0 then { m with selectedIndex := m.selectedIndex - 1 } else m)
  else scrollUp m

/-- Embeds the wheel-down branch of the mouse handler and the
`down`/`j` handler, which model.go writes identically
(lines 95-102 and 149-156). -/
def handleDown (m : Model) : Model :=
  if m.currentView = .IndexView then
    (if m.selectedIndex < (m.articles.length : Int) - 1 then
      { m with selectedIndex := m.selectedIndex + 1 }
    else m)
  else scrollDown m

/-- Embeds the `esc` handler (model.go lines 128-132). -/
def handleEsc (m : Model) : Model :=
  if m.currentView = .ArticleView then
    updateViewport { m with currentView := .IndexView }
  else m

/-- Embeds the `enter` handler (model.go lines 134-138). -/
def handleEnter (m : Model) : Model :=
  if m.currentView = .IndexView ∧ m.articles.length > 0 ∧ m.selectedIndex ≥ 0 then
    updateViewport { m with currentView := .ArticleView }
  else m

/-- Embeds the `home`/`g` handler (model.go lines 164-169). -/
def handleHome (m : Model) : Model :=
  if m.currentView = .IndexView then { m with selectedIndex := 0 }
  else jumpToTop m

/-- Embeds the `end`/`G` handler (model.go lines 171-181). -/
def handleEnd (m : Model) : Model :=
  if m.currentView = .IndexView then
    { m with selectedIndex := (m.articles.length : Int) - 1 }
  else jumpToBottom m

/-- Embeds the `tea.KeyMsg` switch of `Update`
(model.go lines 120-182) on `msg.String()`. -/
def handleKey (m : Model) (s : String) : Model × Cmd :=
  if s = "q" ∨ s = "ctrl+c" then (m, .quit)
  else if s = "h" ∨ s = "?" then ({ m with showHelp := !m.showHelp }, .none)
  else if s = "esc" then (handleEsc m, .none)
  else if s = "enter" then (handleEnter m, .none)
  else if s = "up" ∨ s = "k" then (handleUp m, .none)
  else if s = "down" ∨ s = "j" then (handleDown m, .none)
  else if s = "pgup" then (pageUp m, .none)
  else if s = "pgdown" then (pageDown m, .none)
  else if s = "home" ∨ s = "g" then (handleHome m, .none)
  else if s = "end" ∨ s = "G" then (handleEnd m, .none)
  else (m, .none)

/-- Embeds `(Model).Update` (model.go lines 77-186).  The receiver is
a value, so the returned model is the mutated local copy. -/
def Update (msg : Msg) (m : Model) : Model × Cmd :=
  match msg with
  | .windowSize w h => (handleResize m w h, .none)
  | .mousePress b _ y =>
      match b with
      | .wheelUp => (handleUp m, .none)
      | .wheelDown => (handleDown m, .none)
      | .left => (handleLeftClick m y, .none)
      | .otherButton => (m, .none)
  | .key s => handleKey m s
  | .other => (m, .none)

/-- Embeds the markdown-document assembly of `renderArticle`
(model.go lines 357-390).  `absDate` stands for
`article.Published.Format("Monday, January 2, 2006 at 15:04")`,
`timeAgo` for `formatTimeAgo(article.Published)` and `imgPlaceholder`
for `GetImagePlaceholder(article.ImageURL)` (all computed from
external clock/terminal state). -/
def buildMarkdown (a : Article) (absDate timeAgo imgPlaceholder : String) : String :=
  "# " ++ a.title ++ "\n\n"
    ++ "**Source:** " ++ a.source ++ "\n"
    ++ "**Published:** " ++ absDate ++ " (" ++ timeAgo ++ ")\n"
    ++ "**URL:** " ++ a.link ++ "\n\n"
    ++ (if a.categories.length > 0 then
          "**Categories:** "
            ++ String.intercalate ", " (a.categories.map fun cat => "`" ++ cat ++ "`")
            ++ "\n\n"
        else "")
    ++ "---\n\n"
    ++ (if a.imageURL ≠ "" then imgPlaceholder else "")
    ++ (if a.content ≠ "" then a.content ++ "\n\n"
        else if a.description ≠ "" then a.description ++ "\n\n"
        else "")

/-- Embeds the renderer call and fallback of `renderArticle`
(model.go lines 392-398): `render` is the external
`glamour.TermRenderer.Render` capability; on error the raw markdown
document itself becomes the content. -/
def articleContent (render : String → Except String String)
    (a : Article) (absDate timeAgo imgPlaceholder : String) : String :=
  let md := buildMarkdown a absDate timeAgo imgPlaceholder
  match render md with
  | .ok rendered => rendered
  | .error _ => md

/-- `time.Minute` in nanoseconds. -/
def minuteNs : Int := 60000000000

/-- `time.Hour` in nanoseconds. -/
def hourNs : Int := 3600000000000

/-- `24 * time.Hour` in nanoseconds. -/
def dayNs : Int := 86400000000000

/-- Embeds `formatTimeAgo` (model.go lines 527-555) on the duration
`diff = now - t` in nanoseconds.  `absDate` stands for
`t.Format("January 2, 2006")`.  In each taken branch `diff` is
positive and below 2^53, so Go's `int(diff.Minutes())` (float64
division then truncation toward zero) equals `diff.tdiv minuteNs`,
and likewise for hours and days. -/
def formatTimeAgo (diff : Int) (absDate : String) : String :=
  if diff < minuteNs then "just now"
  else if diff < hourNs then
    let minutes := diff.tdiv minuteNs
    if minutes = 1 then "1 minute ago"
    else toString minutes ++ " minutes ago"
  else if diff < 24 * hourNs then
    let hours := diff.tdiv hourNs
    if hours = 1 then "1 hour ago"
    else toString hours ++ " hours ago"
  else if diff < 7 * dayNs then
    let days := diff.tdiv dayNs
    if days = 1 then "1 day ago"
    else toString days ++ " days ago"
  else absDate

/-- Embeds `ShouldUsePager` (pager.go lines 25-42).  `isTerm` stands
for `isTerminal()` (whether stdout is a character device) and
`envNoPager` for `os.Getenv("NWCLI_NO_PAGER")`. -/
def ShouldUsePager (noPager : Bool) (isTerm : Bool) (envNoPager : String) : Bool :=
  if noPager then false
  else if !isTerm then false
  else if envNoPager ≠ "" then false
  else true

/-- The model after one processed message. -/
def step (m : Model) (msg : Msg) : Model :=
  (Update msg m).1

/-- The model after a whole event sequence. -/
def run (m : Model) (msgs : List Msg) : Model :=
  msgs.foldl step m

/-- The six viewport scroll operations of the spec: line-step up/down,
page-step up/down, jump-to-top, jump-to-bottom.  Each names the
corresponding model.go method or handler branch. -/
inductive ScrollEvent where
  | lineUp
  | lineDown
  | pageStepUp
  | pageStepDown
  | toTop
  | toBottom
deriving DecidableEq, Repr

/-- Dispatches one scroll event to its model.go operation. -/
def applyScroll (m : Model) : ScrollEvent → Model
  | .lineUp => scrollUp m
  | .lineDown => scrollDown m
  | .pageStepUp => pageUp m
  | .pageStepDown => pageDown m
  | .toTop => jumpToTop m
  | .toBottom => jumpToBottom m

/-- The list-navigation events of the spec: up/down/home/end keys and
the equivalent mouse-wheel presses. -/
inductive NavEvent where
  | up
  | down
  | home
  | toEnd
  | wheelUp
  | wheelDown
deriving DecidableEq, Repr

/-- The message each navigation event arrives as. -/
def navMsg : NavEvent → Msg
  | .up => .key "up"
  | .down => .key "down"
  | .home => .key "home"
  | .toEnd => .key "end"
  | .wheelUp => .mousePress .wheelUp 0 0
  | .wheelDown => .mousePress .wheelDown 0 0

/-- The model after a sequence of navigation events. -/
def navRun (m : Model) (evs : List NavEvent) : Model :=
  evs.foldl (fun acc e => step acc (navMsg e)) m

/-- The scroll-offset invariant of the spec:
`0 <= scrollOffset <= max(0, totalLines(content) - height + 1)`. -/
def ScrollInv (m : Model) : Prop :=
  0 ≤ m.viewport.scrollOffset ∧
    m.viewport.scrollOffset ≤ max 0 ((totalLines m.viewport.content : Int) - m.viewport.height + 1)

/-- A concrete article used by witnesses and counterexamples. -/
def sampleArticle : Article :=
  { title := "Sample headline"
    description := "A short description"
    content := "Body text"
    link := "https://example.org/a"
    published := 0
    source := "Example Wire"
    imageURL := ""
    categories := ["world"] }

/-! ## Helper lemmas -/

/-- Scroll events only move the offset: content and height are
untouched. -/
lemma applyScroll_content (m : Model) (e : ScrollEvent) :
    (applyScroll m e).viewport.content = m.viewport.content := by
  cases e <;>
    simp only [applyScroll, scrollUp, scrollDown, pageUp, pageDown, jumpToTop, jumpToBottom] <;>
    split_ifs <;> rfl

/-- Scroll events do not change the viewport height. -/
lemma applyScroll_height (m : Model) (e : ScrollEvent) :
    (applyScroll m e).viewport.height = m.viewport.height := by
  cases e <;>
    simp only [applyScroll, scrollUp, scrollDown, pageUp, pageDown, jumpToTop, jumpToBottom] <;>
    split_ifs <;> rfl

/-- One scroll event preserves the offset invariant, provided the
viewport shows at least two lines and the content is at least as long
as the viewport. -/
lemma scrollInv_applyScroll (m : Model) (e : ScrollEvent)
    (h2 : 2 ≤ m.viewport.height)
    (hL : m.viewport.height ≤ (totalLines m.viewport.content : Int))
    (hInv : ScrollInv m) : ScrollInv (applyScroll m e) := by
  obtain ⟨h0, h1⟩ := hInv
  have hmax : max 0 ((totalLines m.viewport.content : Int) - m.viewport.height + 1)
      = (totalLines m.viewport.content : Int) - m.viewport.height + 1 := max_eq_right (by omega)
  rw [hmax] at h1
  suffices h : 0 ≤ (applyScroll m e).viewport.scrollOffset ∧
      (applyScroll m e).viewport.scrollOffset
        ≤ (totalLines m.viewport.content : Int) - m.viewport.height + 1 by
    refine ⟨h.1, ?_⟩
    rw [applyScroll_content, applyScroll_height, hmax]
    exact h.2
  cases e <;>
    simp only [applyScroll, scrollUp, scrollDown, pageUp, pageDown, jumpToTop, jumpToBottom,
      maxScroll] <;>
    (try split_ifs) <;> (try dsimp only) <;> constructor <;> omega

/-- A reachable-looking detail-view state whose content is shorter
than its viewport: empty content, height 20, offset 0.  Its offset
satisfies the spec's invariant, whose bound here is
`max(0, 0 - 20 + 1) = 0`. -/
def shortModel : Model :=
  { articles := [sampleArticle]
    currentView := .ArticleView
    selectedIndex := 0
    title := "t"
    viewport := { content := "", scrollOffset := 0, height := 20 }
    showHelp := false
    windowWidth := 80
    windowHeight := 24 }

/-- C1 fails as stated: from a state satisfying the invariant
(content of 0 lines, height 20, offset 0, bound 0), a single
page-step-down event drives `scrollOffset` to 18 > 0, because
`pageDown` clamps only when `maxScroll > 0`. -/
theorem claim1_counterexample :
    ScrollInv shortModel ∧
      (applyScroll shortModel ScrollEvent.pageStepDown).viewport.scrollOffset = 18 ∧
      ¬ ScrollInv (applyScroll shortModel ScrollEvent.pageStepDown) := by
  refine ⟨⟨by decide, by decide⟩, by decide, fun h => absurd h.2 (by decide)⟩

/-- C1 (amended): for every pager state whose viewport satisfies
`0 <= scrollOffset <= max(0, totalLines(content) - height + 1)` and
additionally has `height >= 2` and `totalLines(content) >= height`,
the invariant still holds after each event of any sequence of
line-step, page-step and jump scroll events. -/
theorem claim1_amended_scroll_invariant (m : Model) (evs : List ScrollEvent)
    (h2 : 2 ≤ m.viewport.height)
    (hL : m.viewport.height ≤ (totalLines m.viewport.content : Int))
    (hInv : ScrollInv m) : ScrollInv (evs.foldl applyScroll m) := by
  induction evs generalizing m with
  | nil => exact hInv
  | cons e evs ih =>
      have hc := applyScroll_content m e
      have hh := applyScroll_height m e
      exact ih (applyScroll m e) (hh ▸ h2) (by rw [hc, hh]; exact hL)
        (scrollInv_applyScroll m e h2 hL hInv)

/-- A detail-view state with three newlines of content and viewport
height 2, used for the C1 witness. -/
def shortModel3 : Model :=
  { shortModel with viewport := { content := "a\nb\nc\n", scrollOffset := 0, height := 2 } }

/-- Witness for C1 (amended): three lines of content, height 2,
offset 0; after a line-step down, a page-step down and a jump to
bottom the invariant still holds. -/
theorem claim1_witness :
    (2 ≤ shortModel3.viewport.height ∧
        shortModel3.viewport.height ≤ (totalLines shortModel3.viewport.content : Int) ∧
        ScrollInv shortModel3) ∧
      ScrollInv ([ScrollEvent.lineDown, ScrollEvent.pageStepDown,
        ScrollEvent.toBottom].foldl applyScroll shortModel3) := by
  refine ⟨⟨by decide, by decide, by decide, by decide⟩, ?_⟩
  exact claim1_amended_scroll_invariant shortModel3 _ (by decide) (by decide) ⟨by decide, by decide⟩

/-- `pageDown` rewrites only the scroll offset. -/
lemma pageDown_content (m : Model) : (pageDown m).viewport.content = m.viewport.content := rfl

/-- `pageDown` keeps the viewport height. -/
lemma pageDown_height (m : Model) : (pageDown m).viewport.height = m.viewport.height := rfl

/-- Iterated `pageDown` keeps content and height. -/
lemma pageDown_iterate_fields (m : Model) : ∀ n : Nat,
    (pageDown^[n] m).viewport.content = m.viewport.content ∧
      (pageDown^[n] m).viewport.height = m.viewport.height := by
  intro n
  induction n with
  | zero => exact ⟨rfl, rfl⟩
  | succ n ih =>
      rw [Function.iterate_succ_apply', pageDown_content, pageDown_height]
      exact ih

/-- With 100 content lines and height 20, one `pageDown` moves the
offset to `min (offset + 18) 81`. -/
lemma pageDown_offset_100_20 (m : Model)
    (hL : totalLines m.viewport.content = 100) (hH : m.viewport.height = 20) :
    (pageDown m).viewport.scrollOffset = min (m.viewport.scrollOffset + 18) 81 := by
  simp only [pageDown, maxScroll, hL, hH]
  split_ifs <;> omega

/-- C3: with content of 100 lines (newline count 100) and viewport
height 20 starting at offset 0, `maxScroll` is exactly
`100 - 20 + 1 = 81`; any number of page-down events (step
`height - 2 = 18`) keeps the offset at or below 81, and five or more
page-down events pin it to exactly 81. -/
theorem claim3_pagedown_clamps (m : Model)
    (hL : totalLines m.viewport.content = 100)
    (hH : m.viewport.height = 20)
    (h0 : m.viewport.scrollOffset = 0) :
    maxScroll m.viewport = 81 ∧
      (∀ n : Nat, (pageDown^[n] m).viewport.scrollOffset ≤ 81) ∧
      (∀ n : Nat, 5 ≤ n → (pageDown^[n] m).viewport.scrollOffset = 81) := by
  have closed : ∀ n : Nat, (pageDown^[n] m).viewport.scrollOffset = min (18 * (n : Int)) 81 := by
    intro n
    induction n with
    | zero => simpa using h0
    | succ n ih =>
        obtain ⟨hc, hh⟩ := pageDown_iterate_fields m n
        rw [Function.iterate_succ_apply',
          pageDown_offset_100_20 _ (by rw [hc]; exact hL) (by rw [hh]; exact hH), ih]
        push_cast
        omega
  refine ⟨?_, fun n => ?_, fun n hn => ?_⟩
  · simp only [maxScroll, hL, hH]
    norm_num
  · rw [closed n]
    omega
  · rw [closed n]
    omega

/-- A detail-view state with 100 newlines of content, height 20,
offset 0, used for the C3 witness. -/
def hundredLineModel : Model :=
  { shortModel with
      viewport := { content := String.mk (List.replicate 100 '\n'), scrollOffset := 0, height := 20 } }

/-- Witness for C3: on the concrete 100-line, height-20 state,
`maxScroll` is 81 and six page-downs land exactly on 81. -/
theorem claim3_witness :
    (totalLines hundredLineModel.viewport.content = 100 ∧
        hundredLineModel.viewport.height = 20 ∧
        hundredLineModel.viewport.scrollOffset = 0) ∧
      maxScroll hundredLineModel.viewport = 81 ∧
      (pageDown^[6] hundredLineModel).viewport.scrollOffset = 81 := by
  have h := claim3_pagedown_clamps hundredLineModel (by decide) (by decide) (by decide)
  exact ⟨⟨by decide, by decide, by decide⟩, h.1, h.2.2 6 (by decide)⟩

/-- The fields a pure viewport operation leaves alone. -/
def PreservesCore (m mNew : Model) : Prop :=
  mNew.articles = m.articles ∧ mNew.selectedIndex = m.selectedIndex ∧
    mNew.currentView = m.currentView ∧ mNew.viewport.content = m.viewport.content

/-- The fields a list-navigation handler leaves alone. -/
def PreservesNav (m mNew : Model) : Prop :=
  mNew.articles = m.articles ∧ mNew.currentView = m.currentView ∧
    mNew.viewport.content = m.viewport.content

lemma scrollUp_core (m : Model) : PreservesCore m (scrollUp m) := by
  unfold PreservesCore scrollUp
  split_ifs <;> exact ⟨rfl, rfl, rfl, rfl⟩

lemma scrollDown_core (m : Model) : PreservesCore m (scrollDown m) := by
  unfold PreservesCore scrollDown
  dsimp only
  split_ifs <;> exact ⟨rfl, rfl, rfl, rfl⟩

lemma pageUp_core (m : Model) : PreservesCore m (pageUp m) := ⟨rfl, rfl, rfl, rfl⟩

lemma pageDown_core (m : Model) : PreservesCore m (pageDown m) := ⟨rfl, rfl, rfl, rfl⟩

lemma jumpToTop_core (m : Model) : PreservesCore m (jumpToTop m) := ⟨rfl, rfl, rfl, rfl⟩

lemma jumpToBottom_core (m : Model) : PreservesCore m (jumpToBottom m) := by
  unfold PreservesCore jumpToBottom
  dsimp only
  split_ifs <;> exact ⟨rfl, rfl, rfl, rfl⟩

lemma updateViewport_core (m : Model) : PreservesCore m (updateViewport m) := by
  unfold PreservesCore updateViewport
  split_ifs <;> exact ⟨rfl, rfl, rfl, rfl⟩

lemma handleResize_core (m : Model) (w h : Int) : PreservesCore m (handleResize m w h) :=
  ⟨rfl, rfl, rfl, rfl⟩

lemma handleUp_nav (m : Model) : PreservesNav m (handleUp m) := by
  unfold handleUp
  split_ifs <;>
    first
      | exact ⟨rfl, rfl, rfl⟩
      | exact ⟨(scrollUp_core m).1, (scrollUp_core m).2.2.1, (scrollUp_core m).2.2.2⟩

lemma handleDown_nav (m : Model) : PreservesNav m (handleDown m) := by
  unfold handleDown
  split_ifs <;>
    first
      | exact ⟨rfl, rfl, rfl⟩
      | exact ⟨(scrollDown_core m).1, (scrollDown_core m).2.2.1, (scrollDown_core m).2.2.2⟩

lemma handleHome_nav (m : Model) : PreservesNav m (handleHome m) := by
  unfold handleHome
  split_ifs <;> exact ⟨rfl, rfl, rfl⟩

lemma handleEnd_nav (m : Model) : PreservesNav m (handleEnd m) := by
  unfold handleEnd
  split_ifs <;>
    first
      | exact ⟨rfl, rfl, rfl⟩
      | exact ⟨(jumpToBottom_core m).1, (jumpToBottom_core m).2.2.1, (jumpToBottom_core m).2.2.2⟩

lemma handleEsc_sel (m : Model) :
    (handleEsc m).articles = m.articles ∧ (handleEsc m).selectedIndex = m.selectedIndex ∧
      (handleEsc m).viewport.content = m.viewport.content := by
  unfold handleEsc
  split_ifs with h
  · exact ⟨(updateViewport_core _).1, (updateViewport_core _).2.1,
      (updateViewport_core _).2.2.2⟩
  · exact ⟨rfl, rfl, rfl⟩

lemma handleEnter_sel (m : Model) :
    (handleEnter m).articles = m.articles ∧ (handleEnter m).selectedIndex = m.selectedIndex ∧
      (handleEnter m).viewport.content = m.viewport.content := by
  unfold handleEnter
  split_ifs with h
  · exact ⟨(updateViewport_core _).1, (updateViewport_core _).2.1,
      (updateViewport_core _).2.2.2⟩
  · exact ⟨rfl, rfl, rfl⟩

lemma handleLeftClick_frame (m : Model) (y : Int) :
    (handleLeftClick m y).articles = m.articles ∧
      (handleLeftClick m y).viewport.content = m.viewport.content := by
  unfold handleLeftClick
  dsimp only
  split_ifs <;> exact ⟨rfl, rfl⟩

lemma handleKey_frame (m : Model) (s : String) :
    (handleKey m s).1.articles = m.articles ∧
      (handleKey m s).1.viewport.content = m.viewport.content := by
  unfold handleKey
  split_ifs
  · exact ⟨rfl, rfl⟩
  · exact ⟨rfl, rfl⟩
  · exact ⟨(handleEsc_sel m).1, (handleEsc_sel m).2.2⟩
  · exact ⟨(handleEnter_sel m).1, (handleEnter_sel m).2.2⟩
  · exact ⟨(handleUp_nav m).1, (handleUp_nav m).2.2⟩
  · exact ⟨(handleDown_nav m).1, (handleDown_nav m).2.2⟩
  · exact ⟨rfl, rfl⟩
  · exact ⟨rfl, rfl⟩
  · exact ⟨(handleHome_nav m).1, (handleHome_nav m).2.2⟩
  · exact ⟨(handleEnd_nav m).1, (handleEnd_nav m).2.2⟩
  · exact ⟨rfl, rfl⟩

/-- No handler of `Update` ever writes the `articles` list. -/
lemma update_articles (msg : Msg) (m : Model) : (step m msg).articles = m.articles := by
  cases msg with
  | windowSize w h => rfl
  | mousePress b x y =>
      cases b with
      | wheelUp => exact (handleUp_nav m).1
      | wheelDown => exact (handleDown_nav m).1
      | left => exact (handleLeftClick_frame m y).1
      | otherButton => rfl
  | key s => exact (handleKey_frame m s).1
  | other => rfl

/-- No handler of `Update` ever writes `viewport.content`: the only
assignment to it in model.go (line 398) mutates the value-receiver
copy inside `renderArticle`, which is discarded. -/
lemma update_content (msg : Msg) (m : Model) :
    (step m msg).viewport.content = m.viewport.content := by
  cases msg with
  | windowSize w h => rfl
  | mousePress b x y =>
      cases b with
      | wheelUp => exact (handleUp_nav m).2.2
      | wheelDown => exact (handleDown_nav m).2.2
      | left => exact (handleLeftClick_frame m y).2
      | otherButton => rfl
  | key s => exact (handleKey_frame m s).2
  | other => rfl

/-- A whole run never changes `viewport.content`. -/
lemma run_content (m : Model) (msgs : List Msg) :
    (run m msgs).viewport.content = m.viewport.content := by
  induction msgs generalizing m with
  | nil => rfl
  | cons msg msgs ih =>
      show (run (step m msg) msgs).viewport.content = m.viewport.content
      rw [ih, update_content]

/-- The selection invariant for a non-empty list:
`0 <= selectedIndex < len(items)`. -/
def SelInv (m : Model) : Prop :=
  0 ≤ m.selectedIndex ∧ m.selectedIndex < (m.articles.length : Int)

/-- Each navigation event dispatches to its handler. -/
lemma navStep_eq (m : Model) : ∀ e : NavEvent,
    step m (navMsg e) =
      (match e with
        | .up => handleUp m
        | .down => handleDown m
        | .home => handleHome m
        | .toEnd => handleEnd m
        | .wheelUp => handleUp m
        | .wheelDown => handleDown m)
  | .up => rfl
  | .down => rfl
  | .home => rfl
  | .toEnd => rfl
  | .wheelUp => rfl
  | .wheelDown => rfl

/-- A navigation handler transports `SelInv` along its frame. -/
lemma selInv_of_nav {m mNew : Model} (h : PreservesNav m mNew)
    (hsel : 0 ≤ mNew.selectedIndex ∧ mNew.selectedIndex < (m.articles.length : Int)) :
    SelInv mNew := ⟨hsel.1, by rw [h.1]; exact hsel.2⟩

/-- `handleUp` keeps the selection inside the non-empty list. -/
lemma selInv_handleUp (m : Model) (hInv : SelInv m) : SelInv (handleUp m) := by
  obtain ⟨h0, h1⟩ := hInv
  refine selInv_of_nav (handleUp_nav m) ?_
  unfold handleUp
  split_ifs <;> (try dsimp only) <;>
    first
      | exact ⟨by omega, by omega⟩
      | exact ⟨by rw [(scrollUp_core m).2.1]; omega, by rw [(scrollUp_core m).2.1]; omega⟩

/-- `handleDown` keeps the selection inside the non-empty list. -/
lemma selInv_handleDown (m : Model) (hInv : SelInv m) : SelInv (handleDown m) := by
  obtain ⟨h0, h1⟩ := hInv
  refine selInv_of_nav (handleDown_nav m) ?_
  unfold handleDown
  split_ifs <;> (try dsimp only) <;>
    first
      | exact ⟨by omega, by omega⟩
      | exact ⟨by rw [(scrollDown_core m).2.1]; omega, by rw [(scrollDown_core m).2.1]; omega⟩

/-- `handleHome` keeps the selection inside the non-empty list. -/
lemma selInv_handleHome (m : Model) (hne : m.articles ≠ []) (hInv : SelInv m) :
    SelInv (handleHome m) := by
  have hlen : 0 < m.articles.length := List.length_pos.mpr hne
  obtain ⟨h0, h1⟩ := hInv
  refine selInv_of_nav (handleHome_nav m) ?_
  unfold handleHome
  split_ifs <;> (try dsimp only) <;>
    first
      | exact ⟨by omega, by omega⟩
      | exact ⟨by rw [(jumpToTop_core m).2.1]; omega, by rw [(jumpToTop_core m).2.1]; omega⟩

/-- `handleEnd` keeps the selection inside the non-empty list. -/
lemma selInv_handleEnd (m : Model) (hne : m.articles ≠ []) (hInv : SelInv m) :
    SelInv (handleEnd m) := by
  have hlen : 0 < m.articles.length := List.length_pos.mpr hne
  obtain ⟨h0, h1⟩ := hInv
  refine selInv_of_nav (handleEnd_nav m) ?_
  unfold handleEnd
  split_ifs <;> (try dsimp only) <;>
    first
      | exact ⟨by omega, by omega⟩
      | exact ⟨by rw [(jumpToBottom_core m).2.1]; omega,
          by rw [(jumpToBottom_core m).2.1]; omega⟩

/-- Any single navigation event keeps the selection inside the
non-empty list. -/
lemma selInv_navStep (m : Model) (e : NavEvent) (hne : m.articles ≠ [])
    (hInv : SelInv m) : SelInv (step m (navMsg e)) := by
  rw [navStep_eq]
  cases e with
  | up => exact selInv_handleUp m hInv
  | down => exact selInv_handleDown m hInv
  | home => exact selInv_handleHome m hne hInv
  | toEnd => exact selInv_handleEnd m hne hInv
  | wheelUp => exact selInv_handleUp m hInv
  | wheelDown => exact selInv_handleDown m hInv

/-- Navigation events never change the `articles` list. -/
lemma navRun_articles (m : Model) (evs : List NavEvent) :
    (navRun m evs).articles = m.articles := by
  induction evs generalizing m with
  | nil => rfl
  | cons e evs ih =>
      show (navRun (step m (navMsg e)) evs).articles = m.articles
      rw [ih, update_articles]

/-- The selection invariant survives any navigation sequence over a
non-empty list. -/
lemma selInv_navRun (m : Model) (evs : List NavEvent) (hne : m.articles ≠ [])
    (hInv : SelInv m) : SelInv (navRun m evs) := by
  induction evs generalizing m with
  | nil => exact hInv
  | cons e evs ih =>
      show SelInv (navRun (step m (navMsg e)) evs)
      exact ih _ (by rw [update_articles]; exact hne) (selInv_navStep m e hne hInv)

/-- `handleUp` keeps an empty-list selection at `-1`. -/
lemma emptySel_handleUp (m : Model) (h2 : m.selectedIndex = -1) :
    (handleUp m).selectedIndex = -1 := by
  unfold handleUp
  split_ifs <;> (try dsimp only) <;>
    first
      | omega
      | rw [(scrollUp_core m).2.1]; omega

/-- `handleDown` keeps an empty-list selection at `-1`. -/
lemma emptySel_handleDown (m : Model) (h1 : m.articles = []) (h2 : m.selectedIndex = -1) :
    (handleDown m).selectedIndex = -1 := by
  have hl : m.articles.length = 0 := by rw [h1]; rfl
  unfold handleDown
  split_ifs <;> (try dsimp only) <;>
    first
      | omega
      | rw [(scrollDown_core m).2.1]; omega

/-- `handleEnd` keeps an empty-list selection at `-1`: the index-view
branch writes `len - 1 = -1`. -/
lemma emptySel_handleEnd (m : Model) (h1 : m.articles = []) (h2 : m.selectedIndex = -1) :
    (handleEnd m).selectedIndex = -1 := by
  have hl : m.articles.length = 0 := by rw [h1]; rfl
  unfold handleEnd
  split_ifs <;> (try dsimp only) <;>
    first
      | omega
      | rw [(jumpToBottom_core m).2.1]; omega

/-- On an empty list, every navigation event except `home`/`g` keeps
the selection at `-1`. -/
lemma emptyNav_step (m : Model) (e : NavEvent) (he : e ≠ .home)
    (h1 : m.articles = []) (h2 : m.selectedIndex = -1) :
    (step m (navMsg e)).articles = [] ∧ (step m (navMsg e)).selectedIndex = -1 := by
  refine ⟨by rw [update_articles]; exact h1, ?_⟩
  rw [navStep_eq]
  cases e with
  | home => exact absurd rfl he
  | up => exact emptySel_handleUp m h2
  | down => exact emptySel_handleDown m h1 h2
  | toEnd => exact emptySel_handleEnd m h1 h2
  | wheelUp => exact emptySel_handleUp m h2
  | wheelDown => exact emptySel_handleDown m h1 h2

/-- On an empty list, a navigation sequence avoiding `home`/`g`
keeps the selection at `-1`. -/
lemma emptyNav_run (evs : List NavEvent) : ∀ m : Model, NavEvent.home ∉ evs →
    m.articles = [] → m.selectedIndex = -1 →
    (navRun m evs).articles = [] ∧ (navRun m evs).selectedIndex = -1 := by
  induction evs with
  | nil => exact fun m _ h1 h2 => ⟨h1, h2⟩
  | cons e evs ih =>
      intro m hmem h1 h2
      have he : e ≠ .home := fun h => hmem (h ▸ List.mem_cons_self e evs)
      have hstep := emptyNav_step m e he h1 h2
      exact ih (step m (navMsg e)) (fun h => hmem (List.mem_cons_of_mem e h)) hstep.1 hstep.2

/-- C2 fails as stated: on the empty list the model is constructed
with `selectedIndex = -1`, but one `home`/`g` event sets it to 0
(model.go line 166 has no empty-list guard), breaking the
`selectedIndex == -1 iff items empty` invariant. -/
theorem claim2_counterexample :
    (NewModel ([] : List Article) "News").articles.length = 0 ∧
      (NewModel ([] : List Article) "News").selectedIndex = -1 ∧
      (step (NewModel ([] : List Article) "News") (navMsg NavEvent.home)).selectedIndex = 0 :=
  ⟨rfl, rfl, rfl⟩

/-- C2 (amended): `selectedIndex = -1` iff the list is empty holds at
construction; for a non-empty list of length n the selection stays in
`[0, n-1]` after every sequence of up/down/home/end (or wheel)
events; for an empty list the selection stays `-1` after every such
sequence that contains no `home`/`g` event (a `home`/`g` event sets
it to 0). -/
theorem claim2_amended_selection_invariant (arts : List Article) (title : String) :
    ((NewModel arts title).selectedIndex = -1 ↔ arts = []) ∧
      (arts ≠ [] → ∀ evs : List NavEvent,
        0 ≤ (navRun (NewModel arts title) evs).selectedIndex ∧
          (navRun (NewModel arts title) evs).selectedIndex < (arts.length : Int)) ∧
      (arts = [] → ∀ evs : List NavEvent, NavEvent.home ∉ evs →
        (navRun (NewModel arts title) evs).selectedIndex = -1) := by
  refine ⟨?_, ?_, ?_⟩
  · cases arts with
    | nil => simp [NewModel]
    | cons a l => simp [NewModel]
  · intro hne evs
    have hlen : 0 < arts.length := List.length_pos.mpr hne
    have hinit : SelInv (NewModel arts title) := by
      constructor
      · show (0 : Int) ≤ (NewModel arts title).selectedIndex
        simp only [NewModel]
        rw [if_neg (by omega)]
      · show (NewModel arts title).selectedIndex < ((NewModel arts title).articles.length : Int)
        simp only [NewModel]
        rw [if_neg (by omega)]
        exact_mod_cast hlen
    have h := selInv_navRun (NewModel arts title) evs hne hinit
    have ha : (navRun (NewModel arts title) evs).articles = arts := navRun_articles _ _
    have h2 := h.2
    rw [ha] at h2
    exact ⟨h.1, h2⟩
  · intro he evs hmem
    exact (emptyNav_run evs (NewModel arts title) hmem (by rw [he]; rfl)
      (by simp [NewModel, he])).2

/-- Witness for C2 (amended): a one-element list; after a down and a
home event the selection is still inside `[0, 0]`. -/
theorem claim2_witness :
    ([sampleArticle] ≠ ([] : List Article)) ∧
      0 ≤ (navRun (NewModel [sampleArticle] "News") [NavEvent.down, NavEvent.home]).selectedIndex ∧
      (navRun (NewModel [sampleArticle] "News")
          [NavEvent.down, NavEvent.home]).selectedIndex < 1 := by
  have h := (claim2_amended_selection_invariant [sampleArticle] "News").2.1
    (by simp) [NavEvent.down, NavEvent.home]
  exact ⟨by simp, h.1, by simpa using h.2⟩

/-- C4 fails as stated: from construction, press enter (opening the
article), resize the window to height 0 (viewport height becomes
`0 - 4 = -4`), then press down.  The stored content is still `""`,
yet `scrollDown` moves the offset (its `maxScroll = 0 - (-4) + 1 = 5`
is positive), so line-step scroll-down does change `scrollOffset` on
the stored state. -/
theorem claim4_counterexample :
    (run (NewModel [sampleArticle] "t")
        [.key "enter", .windowSize 80 0]).viewport.content = "" ∧
      (step (run (NewModel [sampleArticle] "t") [.key "enter", .windowSize 80 0])
          (.key "down")).viewport.scrollOffset ≠
        (run (NewModel [sampleArticle] "t")
          [.key "enter", .windowSize 80 0]).viewport.scrollOffset :=
  ⟨rfl, by decide⟩

/-- C4 (amended): no update-path assignment ever writes the stored
viewport content (the article-render assignment mutates a discarded
value-receiver copy), so every state reachable from construction has
content `""`; consequently, whenever the viewport height is at least
1, line-step scroll-down and jump-to-bottom leave `scrollOffset`
unchanged (with height `<= 0`, reachable through a resize to terminal
height `<= 4`, they can move it). -/
theorem claim4_amended_content_never_stored :
    (∀ (msg : Msg) (m : Model), (step m msg).viewport.content = m.viewport.content) ∧
      (∀ (arts : List Article) (title : String) (msgs : List Msg),
        (run (NewModel arts title) msgs).viewport.content = "") ∧
      (∀ m : Model, m.viewport.content = "" → 1 ≤ m.viewport.height →
        (scrollDown m).viewport.scrollOffset = m.viewport.scrollOffset ∧
          (jumpToBottom m).viewport.scrollOffset = m.viewport.scrollOffset) := by
  refine ⟨update_content, ?_, ?_⟩
  · intro arts title msgs
    rw [run_content]
    rfl
  · intro m hc hh
    have hms : maxScroll m.viewport ≤ 0 := by
      unfold maxScroll
      rw [hc]
      have h0 : totalLines "" = 0 := rfl
      rw [h0]
      omega
    constructor
    · have hsd : scrollDown m = m := by
        unfold scrollDown
        dsimp only
        rw [if_neg]
        intro hcon
        omega
      rw [hsd]
    · have hjb : jumpToBottom m = m := by
        unfold jumpToBottom
        dsimp only
        rw [if_neg]
        omega
      rw [hjb]

/-- Witness for C4 (amended): on the concrete detail-view state with
empty content and height 20, scroll-down leaves the offset alone. -/
theorem claim4_witness :
    (shortModel.viewport.content = "" ∧ 1 ≤ shortModel.viewport.height) ∧
      (scrollDown shortModel).viewport.scrollOffset = shortModel.viewport.scrollOffset ∧
      (jumpToBottom shortModel).viewport.scrollOffset = shortModel.viewport.scrollOffset := by
  have h := claim4_amended_content_never_stored.2.2 shortModel rfl (by decide)
  exact ⟨⟨rfl, by decide⟩, h.1, h.2⟩

set_option maxHeartbeats 2000000 in
/-- C5: any event whose handling moves the state machine from the
list view to the detail view (the guarded enter key or an accepted
left click) leaves the resulting state with `scrollOffset = 0`,
because both transition sites call `updateViewport`, which resets the
offset when the current view is the article view. -/
theorem claim5_enter_detail_resets_scroll (msg : Msg) (m : Model)
    (hIdx : m.currentView = .IndexView)
    (hTo : (step m msg).currentView = .ArticleView) :
    (step m msg).viewport.scrollOffset = 0 := by
  cases msg with
  | windowSize w h =>
      rw [show step m (.windowSize w h) = handleResize m w h from rfl,
        (handleResize_core m w h).2.2.1, hIdx] at hTo
      exact ViewType.noConfusion hTo
  | mousePress b x y =>
      cases b with
      | wheelUp =>
          rw [show step m (.mousePress .wheelUp x y) = handleUp m from rfl,
            (handleUp_nav m).2.1, hIdx] at hTo
          exact ViewType.noConfusion hTo
      | wheelDown =>
          rw [show step m (.mousePress .wheelDown x y) = handleDown m from rfl,
            (handleDown_nav m).2.1, hIdx] at hTo
          exact ViewType.noConfusion hTo
      | left =>
          rw [show step m (.mousePress .left x y) = handleLeftClick m y from rfl] at hTo ⊢
          unfold handleLeftClick at hTo ⊢
          dsimp only at hTo ⊢
          split_ifs at hTo ⊢
          · rfl
          all_goals (rw [hIdx] at hTo; exact ViewType.noConfusion hTo)
      | otherButton =>
          rw [show step m (.mousePress .otherButton x y) = m from rfl, hIdx] at hTo
          exact ViewType.noConfusion hTo
  | key s =>
      rw [show step m (.key s) = (handleKey m s).1 from rfl] at hTo ⊢
      unfold handleKey at hTo ⊢
      split_ifs at hTo ⊢
      · dsimp only at hTo
        rw [hIdx] at hTo
        exact ViewType.noConfusion hTo
      · dsimp only at hTo
        rw [hIdx] at hTo
        exact ViewType.noConfusion hTo
      · dsimp only at hTo
        unfold handleEsc at hTo
        split_ifs at hTo with hv
        · rw [hIdx] at hv
          exact ViewType.noConfusion hv
        · rw [hIdx] at hTo
          exact ViewType.noConfusion hTo
      · dsimp only at hTo ⊢
        unfold handleEnter at hTo ⊢
        split_ifs at hTo ⊢
        · rfl
        · rw [hIdx] at hTo
          exact ViewType.noConfusion hTo
      · dsimp only at hTo
        rw [(handleUp_nav m).2.1, hIdx] at hTo
        exact ViewType.noConfusion hTo
      · dsimp only at hTo
        rw [(handleDown_nav m).2.1, hIdx] at hTo
        exact ViewType.noConfusion hTo
      · dsimp only at hTo
        rw [(pageUp_core m).2.2.1, hIdx] at hTo
        exact ViewType.noConfusion hTo
      · dsimp only at hTo
        rw [(pageDown_core m).2.2.1, hIdx] at hTo
        exact ViewType.noConfusion hTo
      · dsimp only at hTo
        rw [(handleHome_nav m).2.1, hIdx] at hTo
        exact ViewType.noConfusion hTo
      · dsimp only at hTo
        rw [(handleEnd_nav m).2.1, hIdx] at hTo
        exact ViewType.noConfusion hTo
      · dsimp only at hTo
        rw [hIdx] at hTo
        exact ViewType.noConfusion hTo
  | other =>
      rw [show step m .other = m from rfl, hIdx] at hTo
      exact ViewType.noConfusion hTo

/-- Witness for C5: the enter key on a freshly constructed one-item
model enters the article view with offset 0. -/
theorem claim5_witness :
    (NewModel [sampleArticle] "t").currentView = ViewType.IndexView ∧
      (step (NewModel [sampleArticle] "t") (Msg.key "enter")).currentView
        = ViewType.ArticleView ∧
      (step (NewModel [sampleArticle] "t") (Msg.key "enter")).viewport.scrollOffset = 0 :=
  ⟨rfl, rfl, claim5_enter_detail_resets_scroll (Msg.key "enter") (NewModel [sampleArticle] "t")
    rfl rfl⟩

/-- C6: in the list view, a left click at row `y` maps to candidate
index `(y - 6).tdiv 6` (header height 6, item row height 6); it
selects that item and enters the article view exactly when `y >= 6`
and the index lies in `[0, len(items) - 1]`, and otherwise leaves the
whole state unchanged. -/
theorem claim6_click_mapping (m : Model) (x y : Int)
    (hIdx : m.currentView = .IndexView) :
    ((6 ≤ y ∧ 0 ≤ (y - 6).tdiv 6 ∧ (y - 6).tdiv 6 < (m.articles.length : Int)) →
        step m (.mousePress .left x y)
          = updateViewport
              { m with selectedIndex := (y - 6).tdiv 6, currentView := .ArticleView }) ∧
      (¬ (6 ≤ y ∧ 0 ≤ (y - 6).tdiv 6 ∧ (y - 6).tdiv 6 < (m.articles.length : Int)) →
        step m (.mousePress .left x y) = m) := by
  rw [show step m (.mousePress .left x y) = handleLeftClick m y from rfl]
  unfold handleLeftClick
  dsimp only
  constructor
  · rintro ⟨hy, h0, hlt⟩
    have hlen : 0 < m.articles.length := by omega
    rw [if_pos ⟨hIdx, hlen⟩, if_pos hy, if_pos ⟨h0, hlt⟩]
  · intro hnot
    split_ifs with c1 c2 c3
    · exact absurd ⟨c2, c3.1, c3.2⟩ hnot
    · rfl
    · rfl
    · rfl

/-- Witness for C6: clicking row 6 of a one-item list view selects
item 0 and enters the article view. -/
theorem claim6_witness :
    step (NewModel [sampleArticle] "t") (Msg.mousePress MouseButton.left 3 6)
      = updateViewport
          { NewModel [sampleArticle] "t" with
              selectedIndex := ((6 : Int) - 6).tdiv 6, currentView := ViewType.ArticleView } :=
  (claim6_click_mapping (NewModel [sampleArticle] "t") 3 6 rfl).1 (by decide)

/-- C7: if the external renderer fails on the assembled markdown
document, the content used for display is exactly that raw markdown
document; the operation itself is total. -/
theorem claim7_renderer_fallback (render : String → Except String String) (a : Article)
    (absDate timeAgo imgPlaceholder : String) (e : String)
    (herr : render (buildMarkdown a absDate timeAgo imgPlaceholder) = .error e) :
    articleContent render a absDate timeAgo imgPlaceholder
      = buildMarkdown a absDate timeAgo imgPlaceholder := by
  unfold articleContent
  dsimp only
  rw [herr]

/-- A renderer double that always fails, for the C7 witness. -/
def failingRender : String → Except String String := fun _ => .error "render failed"

/-- Witness for C7: the failing renderer on the sample article yields
the raw markdown document as content. -/
theorem claim7_witness :
    failingRender (buildMarkdown sampleArticle "d" "ago" "") = Except.error "render failed" ∧
      articleContent failingRender sampleArticle "d" "ago" ""
        = buildMarkdown sampleArticle "d" "ago" "" :=
  ⟨rfl, claim7_renderer_fallback failingRender sampleArticle "d" "ago" "" "render failed" rfl⟩

/-- C8: the relative-time formatter returns "just now" below one
minute, "N minute(s)/hour(s)/day(s) ago" in the minute/hour/day
bands, and the absolute calendar date from seven days on; the
singular form appears exactly when the truncated count is 1 (that is,
below two of the unit); 90 seconds yields "1 minute ago" and 45
seconds yields "just now". -/
theorem claim8_time_ago (d : Int) (absDate : String) :
    (d < minuteNs → formatTimeAgo d absDate = "just now") ∧
      (minuteNs ≤ d → d < hourNs →
        formatTimeAgo d absDate =
          (if d < 2 * minuteNs then "1 minute ago"
            else toString (d.tdiv minuteNs) ++ " minutes ago")) ∧
      (hourNs ≤ d → d < 24 * hourNs →
        formatTimeAgo d absDate =
          (if d < 2 * hourNs then "1 hour ago"
            else toString (d.tdiv hourNs) ++ " hours ago")) ∧
      (24 * hourNs ≤ d → d < 7 * dayNs →
        formatTimeAgo d absDate =
          (if d < 2 * dayNs then "1 day ago"
            else toString (d.tdiv dayNs) ++ " days ago")) ∧
      (7 * dayNs ≤ d → formatTimeAgo d absDate = absDate) ∧
      formatTimeAgo (90 * 1000000000) absDate = "1 minute ago" ∧
      formatTimeAgo (45 * 1000000000) absDate = "just now" := by
  refine ⟨?_, ?_, ?_, ?_, ?_, ?_, ?_⟩
  · intro h
    unfold formatTimeAgo
    rw [if_pos h]
  · intro h1 h2
    unfold formatTimeAgo
    rw [if_neg (by unfold minuteNs at *; omega), if_pos h2]
    have hd : 0 ≤ d := le_trans (by decide : (0 : Int) ≤ minuteNs) h1
    dsimp only
    rw [Int.tdiv_eq_ediv hd (by decide)]
    unfold minuteNs hourNs at *
    rcases lt_or_le d (2 * 60000000000) with hc | hc
    · rw [if_pos (by omega), if_pos hc]
    · rw [if_neg (by omega), if_neg (by omega)]
  · intro h1 h2
    unfold formatTimeAgo
    rw [if_neg (by unfold minuteNs hourNs at *; omega),
      if_neg (by unfold hourNs at *; omega), if_pos h2]
    have hd : 0 ≤ d := le_trans (by decide : (0 : Int) ≤ hourNs) h1
    dsimp only
    rw [Int.tdiv_eq_ediv hd (by decide)]
    unfold hourNs at *
    rcases lt_or_le d (2 * 3600000000000) with hc | hc
    · rw [if_pos (by omega), if_pos hc]
    · rw [if_neg (by omega), if_neg (by omega)]
  · intro h1 h2
    unfold formatTimeAgo
    rw [if_neg (by unfold minuteNs hourNs at *; omega),
      if_neg (by unfold hourNs at *; omega),
      if_neg (by unfold hourNs at *; omega), if_pos (by unfold hourNs dayNs at *; omega)]
    have hd : 0 ≤ d := le_trans (by decide : (0 : Int) ≤ 24 * hourNs) h1
    dsimp only
    rw [Int.tdiv_eq_ediv hd (by decide)]
    unfold hourNs dayNs at *
    rcases lt_or_le d (2 * 86400000000000) with hc | hc
    · rw [if_pos (by omega), if_pos hc]
    · rw [if_neg (by omega), if_neg (by omega)]
  · intro h
    unfold formatTimeAgo
    rw [if_neg (by unfold minuteNs dayNs at *; omega),
      if_neg (by unfold hourNs dayNs at *; omega),
      if_neg (by unfold hourNs dayNs at *; omega),
      if_neg (by unfold dayNs at *; omega)]
  · unfold formatTimeAgo
    rw [if_neg (by decide), if_pos (by decide)]
    dsimp only
    rw [if_pos (by decide)]
  · unfold formatTimeAgo
    rw [if_pos (by decide)]

/-- Witness for C8: a duration of 90 minutes is reported as
"1 hour ago". -/
theorem claim8_witness :
    formatTimeAgo 5400000000000 "January 2, 2006" = "1 hour ago" := by
  have h := (claim8_time_ago 5400000000000 "January 2, 2006").2.2.1 (by decide) (by decide)
  rw [h, if_pos (by decide)]

/-- C9: from the detail view, the esc (back) event returns to the
list view and leaves `selectedIndex` unchanged. -/
theorem claim9_back_preserves_selection (m : Model)
    (hArt : m.currentView = .ArticleView) :
    (step m (.key "esc")).currentView = .IndexView ∧
      (step m (.key "esc")).selectedIndex = m.selectedIndex := by
  rw [show step m (.key "esc") = handleEsc m from rfl]
  unfold handleEsc
  rw [if_pos hArt]
  exact ⟨rfl, rfl⟩

/-- Witness for C9: esc on a concrete detail-view state goes back to
the list view with the same selection. -/
theorem claim9_witness :
    ({ NewModel [sampleArticle] "t" with
        currentView := ViewType.ArticleView } : Model).currentView = ViewType.ArticleView ∧
      (step { NewModel [sampleArticle] "t" with currentView := ViewType.ArticleView }
          (Msg.key "esc")).currentView = ViewType.IndexView ∧
      (step { NewModel [sampleArticle] "t" with currentView := ViewType.ArticleView }
          (Msg.key "esc")).selectedIndex
        = ({ NewModel [sampleArticle] "t" with
            currentView := ViewType.ArticleView } : Model).selectedIndex := by
  have h := claim9_back_preserves_selection
    { NewModel [sampleArticle] "t" with currentView := ViewType.ArticleView } rfl
  exact ⟨rfl, h.1, h.2⟩

/-- C10: the pager-eligibility decision is false exactly when the
explicit disable flag is set, stdout is not a terminal, or the
disable-pager environment variable is non-empty; in particular
`ShouldUsePager true _ _` is always false. -/
theorem claim10_should_use_pager (noPager isTerm : Bool) (env : String) :
    (ShouldUsePager noPager isTerm env = false ↔
        noPager = true ∨ isTerm = false ∨ env ≠ "") ∧
      ShouldUsePager true isTerm env = false := by
  constructor
  · unfold ShouldUsePager
    cases noPager <;> cases isTerm <;> by_cases he : env = "" <;> simp [he]
  · rfl

end Nwcli
